import Mathlib

/-!
# Verification of `jsend-middleware` (src/index.js)

A shallow embedding of the JSend response-formatting helper for Express.
JavaScript runtime values are modelled by `JsValue`; the observable effect of
an operation on the Express response object (`res.status(s).json(body)`) is
modelled as a trace of `Emit` events; a thrown validation `Error` is modelled
as `Except.error` carrying a `JsendError` tag (one tag per distinct error
message in the source), with an empty trace — faithful to the source, where
every `throw` happens before any call on `res`.
-/

/-- A JavaScript runtime value, as far as `src/index.js` inspects values:
`typeof` kind and truthiness, plus object/array structure for envelope
payloads.  Numbers are modelled as integers (no claim depends on float
behaviour). -/
inductive JsValue where
  | vnull : JsValue
  | vundefined : JsValue
  | vbool : Bool → JsValue
  | vnum : Int → JsValue
  | vstr : String → JsValue
  | vobj : List (String × JsValue) → JsValue
  | varr : List JsValue → JsValue
  | vfun : JsValue

namespace JsValue

/-- JavaScript `typeof` on the modelled values (`typeof null` is `"object"`,
as is `typeof` of an array). -/
def typeOf : JsValue → String
  | vnull => "object"
  | vundefined => "undefined"
  | vbool _ => "boolean"
  | vnum _ => "number"
  | vstr _ => "string"
  | vobj _ => "object"
  | varr _ => "object"
  | vfun => "function"

/-- JavaScript truthiness: `null`, `undefined`, `false`, `0`, `""` are falsy;
every object, array and function is truthy. -/
def truthy : JsValue → Bool
  | vnull => false
  | vundefined => false
  | vbool b => b
  | vnum n => n != 0
  | vstr s => s != ""
  | vobj _ => true
  | varr _ => true
  | vfun => true

/-- JavaScript property access `v.key`: the entry of an object, `undefined`
when the key is missing or the value has no properties of its own. -/
def getField : JsValue → String → JsValue
  | vobj fields, key => (fields.lookup key).getD vundefined
  | _, _ => vundefined

/-- JavaScript object spread `{ ...v }` as it occurs on line 85 of the
source, where `v` has already passed the `typeof v === "object"` check:
copies an object's own enumerable entries (for an array, index keys). -/
def spreadIntoObject : JsValue → List (String × JsValue)
  | vobj fields => fields
  | varr elems => (elems.enum.map fun p => (toString p.1, p.2))
  | _ => []

end JsValue

/-- The blankness test `!message.trim()` from line 71 of the source: a
JavaScript string trims to the empty (falsy) string exactly when every one
of its characters is whitespace.  (Stated structurally on the character
list so that it evaluates on concrete strings.) -/
def strBlank (s : String) : Bool :=
  s.data.all Char.isWhitespace

/-- Resolution of a JavaScript default parameter `param = d`: the default
applies when the argument is not passed (`none`) or is `undefined`. -/
def resolveArg (arg : Option JsValue) (d : JsValue) : JsValue :=
  match arg with
  | none => d
  | some .vundefined => d
  | some v => v

/-- One observable write on the Express response object. -/
inductive Emit where
  | setStatus : Int → Emit
  | sendJson : JsValue → Emit

/-- The distinct validation `Error`s thrown by `src/index.js`, one
constructor per error message. -/
inductive JsendError where
  | invalidResponseTarget
  | invalidDataKind
  | invalidMessage
  | invalidExtraKind
  deriving Repr, DecidableEq

/-- The error message string of each thrown `Error` in the source. -/
def JsendError.message : JsendError → String
  | .invalidResponseTarget => "Invalid Express response object provided."
  | .invalidDataKind => "Data must be an object or null."
  | .invalidMessage => "Error response must include a non-empty message string."
  | .invalidExtraKind => "Extra must be an object."

namespace Jsend

open JsValue

/-- The envelope `{ status: statusLabel, data }` built on lines 32-35 and
50-53 of the source. -/
def dataEnvelope (statusLabel : String) (data : JsValue) : JsValue :=
  .vobj [("status", .vstr statusLabel), ("data", data)]

/-- `Jsend.success` (src/index.js lines 28-36):
`success(data = null, status = 200, statusLabel = "success")` throws when
`data && typeof data !== "object"`, otherwise performs
`res.status(status).json({ status: statusLabel, data })`. -/
def success (data : Option JsValue) (status : Option Int)
    (statusLabel : Option String) : Except JsendError (List Emit) :=
  let d := resolveArg data .vnull
  let s := status.getD 200
  let l := statusLabel.getD "success"
  if d.truthy && d.typeOf != "object" then
    .error .invalidDataKind
  else
    .ok [.setStatus s, .sendJson (dataEnvelope l d)]

/-- `Jsend.fail` (src/index.js lines 46-54):
`fail(data = null, status = 400, statusLabel = "fail")` with the same body
as `success`. -/
def fail (data : Option JsValue) (status : Option Int)
    (statusLabel : Option String) : Except JsendError (List Emit) :=
  let d := resolveArg data .vnull
  let s := status.getD 400
  let l := statusLabel.getD "fail"
  if d.truthy && d.typeOf != "object" then
    .error .invalidDataKind
  else
    .ok [.setStatus s, .sendJson (dataEnvelope l d)]

/-- `Jsend.error` (src/index.js lines 65-89):
`error(message = "Internal Server Error", status = 500, options = {},
statusLabel = "error")` throws `InvalidMessage` when
`typeof message !== "string" || !message.trim()`, throws `InvalidExtraKind`
when `options.extra && typeof options.extra !== "object"`, and otherwise
emits the envelope built on lines 80-86: `status` and `message` always,
then `code`, `details` and (a shallow copy of) `extra` each spread in only
when the corresponding option is truthy. -/
def error (message : Option JsValue) (status : Option Int)
    (options : Option JsValue) (statusLabel : Option String) :
    Except JsendError (List Emit) :=
  let m := resolveArg message (.vstr "Internal Server Error")
  let s := status.getD 500
  let o := resolveArg options (.vobj [])
  let l := statusLabel.getD "error"
  match m with
  | .vstr str =>
    if strBlank str then
      .error .invalidMessage
    else
      let extra := o.getField "extra"
      if extra.truthy && extra.typeOf != "object" then
        .error .invalidExtraKind
      else
        let code := o.getField "code"
        let details := o.getField "details"
        .ok [.setStatus s, .sendJson (.vobj
          ([("status", .vstr l), ("message", .vstr str)]
            ++ (if code.truthy then [("code", code)] else [])
            ++ (if details.truthy then [("details", details)] else [])
            ++ (if extra.truthy then [("extra", .vobj extra.spreadIntoObject)]
                else [])))]
  | _ => .error .invalidMessage

end Jsend

/-- The configuration object accepted by `jsendMiddleware` (src/index.js
lines 100-105); `none` models an absent (or `undefined`) field, on which the
destructuring defaults `"success"` / `"fail"` / `"error"` apply. -/
structure JsendConfig where
  successLabel : Option String := none
  failLabel : Option String := none
  errorLabel : Option String := none

namespace Jsend

/-- The `res.jsend.success` wrapper installed by `jsendMiddleware`
(src/index.js lines 109-110): `(data, status) =>
new Jsend(res).success(data, status, successLabel)`.  The arrow function
declares only `(data, status)`, so a third argument passed by the caller is
ignored (modelled by the unused `_statusLabel` parameter). -/
def attachedSuccess (config : JsendConfig) (data : Option JsValue)
    (status : Option Int) (_statusLabel : Option String) :
    Except JsendError (List Emit) :=
  success data status (some (config.successLabel.getD "success"))

/-- The `res.jsend.fail` wrapper installed by `jsendMiddleware`
(src/index.js lines 111-112); as with `attachedSuccess`, a third argument
is ignored. -/
def attachedFail (config : JsendConfig) (data : Option JsValue)
    (status : Option Int) (_statusLabel : Option String) :
    Except JsendError (List Emit) :=
  fail data status (some (config.failLabel.getD "fail"))

/-- The `res.jsend.error` wrapper installed by `jsendMiddleware`
(src/index.js lines 113-114): `(message, status, options) =>
new Jsend(res).error(message, status, options, errorLabel)`; a fourth
argument is ignored. -/
def attachedError (config : JsendConfig) (message : Option JsValue)
    (status : Option Int) (options : Option JsValue)
    (_statusLabel : Option String) : Except JsendError (List Emit) :=
  error message status options (some (config.errorLabel.getD "error"))

end Jsend

/-- An Express response object as far as the `Jsend` constructor inspects
it: its `status` and `json` properties (arbitrary JavaScript values whose
`typeof` is checked). -/
structure ResTarget where
  status : JsValue
  json : JsValue

namespace Jsend

/-- The `Jsend` constructor (src/index.js lines 9-18): throws
`InvalidResponseTarget` when `!res || typeof res.status !== "function" ||
typeof res.json !== "function"`.  `none` models a missing (`null` or
`undefined`, hence falsy) `res`.  The constructor performs no call on
`res` — it only validates and stores the reference. -/
def construct (res : Option ResTarget) : Except JsendError Unit :=
  match res with
  | none => .error .invalidResponseTarget
  | some r =>
    if r.status.typeOf != "function" || r.json.typeOf != "function" then
      .error .invalidResponseTarget
    else
      .ok ()

end Jsend

/-- A heap of JavaScript objects, used to model the reference semantics of
the shallow copy `extra: { ...options.extra }` on line 85 of the source.
Addresses are natural numbers; `next` is the next fresh address (every
address `≥ next` is unallocated). -/
structure Heap where
  mem : Nat → List (String × JsValue)
  next : Nat

/-- The entries of the object stored at address `a`. -/
def Heap.get (h : Heap) (a : Nat) : List (String × JsValue) :=
  h.mem a

/-- Allocation of a fresh object holding `fields`, returning the new heap
and the fresh address. -/
def Heap.alloc (h : Heap) (fields : List (String × JsValue)) : Heap × Nat :=
  (⟨fun x => if x = h.next then fields else h.mem x, h.next + 1⟩, h.next)

/-- Mutation of the object at address `a` (e.g. the caller writing to its
`extra` object after the call returns). -/
def Heap.set (h : Heap) (a : Nat) (fields : List (String × JsValue)) : Heap :=
  ⟨fun x => if x = a then fields else h.mem x, h.next⟩

/-- An `error` envelope at the reference level: the `extra` field holds an
address into the heap (the object `res.json` will serialize), not an inline
value. -/
structure ErrorEnvelopeRef where
  statusLabel : String
  message : String
  extraRef : Option Nat

/-- Reference-level model of the `extra` handling in `Jsend.error`
(src/index.js line 85): when the caller passes an `extra` object — an
address into the heap — the envelope receives a freshly allocated object
holding a copy of the caller's entries (`extra: { ...options.extra }`);
when no `extra` is passed, the envelope has no `extra` reference. -/
def errorExtraRef (h : Heap) (statusLabel message : String)
    (extraAddr : Option Nat) : Heap × ErrorEnvelopeRef :=
  match extraAddr with
  | none => (h, ⟨statusLabel, message, none⟩)
  | some a =>
    let p := h.alloc (h.get a)
    (p.1, ⟨statusLabel, message, some p.2⟩)

/-- The JSON body written by an operation (the argument of the `res.json`
call on the emitted trace), when the operation succeeded. -/
def sentBody : Except JsendError (List Emit) → Option JsValue
  | .ok [.setStatus _, .sendJson b] => some b
  | _ => none

/-- Lookup of a key among the fields of the emitted JSON object. -/
def bodyLookup (r : Except JsendError (List Emit)) (key : String) :
    Option JsValue :=
  match sentBody r with
  | some (.vobj fields) => fields.lookup key
  | _ => none

theorem resolveArg_of_ne (d dflt : JsValue) (h : d ≠ .vundefined) :
    resolveArg (some d) dflt = d := by
  cases d <;> simp [resolveArg] at h ⊢

theorem truthy_ne_vundefined (d : JsValue) (h : d.truthy = true) :
    d ≠ .vundefined := by
  rintro rfl
  simp [JsValue.truthy] at h

/-- C1: for every `data` that is null or an object and every status code,
`success` emits the envelope `{status: label, data}` with that status code,
where the label is the per-call override if given (the `statusLabel`
argument), else the installed configuration's `successLabel` (what the
middleware wrapper passes), else `"success"`; and `fail` obeys the same law
with default status code 400 and default label `"fail"`. -/
theorem success_fail_emit_law (d : JsValue)
    (hd : d = .vnull ∨ d.typeOf = "object") (s : Int) (l : String)
    (cfg : JsendConfig) :
    Jsend.success (some d) (some s) (some l)
      = .ok [.setStatus s, .sendJson (Jsend.dataEnvelope l d)]
    ∧ Jsend.attachedSuccess cfg (some d) (some s) none
      = .ok [.setStatus s,
          .sendJson (Jsend.dataEnvelope (cfg.successLabel.getD "success") d)]
    ∧ Jsend.success (some d) none none
      = .ok [.setStatus 200, .sendJson (Jsend.dataEnvelope "success" d)]
    ∧ Jsend.fail (some d) (some s) (some l)
      = .ok [.setStatus s, .sendJson (Jsend.dataEnvelope l d)]
    ∧ Jsend.attachedFail cfg (some d) (some s) none
      = .ok [.setStatus s,
          .sendJson (Jsend.dataEnvelope (cfg.failLabel.getD "fail") d)]
    ∧ Jsend.fail (some d) none none
      = .ok [.setStatus 400, .sendJson (Jsend.dataEnvelope "fail" d)] := by
  have ht : d.typeOf = "object" := by
    rcases hd with h | h
    · subst h; rfl
    · exact h
  have hnu : d ≠ .vundefined := by
    rintro rfl
    simp [JsValue.typeOf] at ht
  have hres : resolveArg (some d) .vnull = d := resolveArg_of_ne _ _ hnu
  refine ⟨?_, ?_, ?_, ?_, ?_, ?_⟩ <;>
    simp [Jsend.success, Jsend.fail, Jsend.attachedSuccess, Jsend.attachedFail,
      hres, ht]

/-- Witness for C1 at `data = {}`, status 201, label `"ok"`, configuration
`{successLabel: "yay"}`. -/
theorem success_fail_emit_law_witness :
    ((JsValue.vobj []) = .vnull ∨ (JsValue.vobj []).typeOf = "object")
    ∧ Jsend.attachedSuccess ⟨some "yay", none, none⟩
        (some (.vobj [])) (some 201) none
      = .ok [.setStatus 201, .sendJson (Jsend.dataEnvelope "yay" (.vobj []))] :=
  ⟨Or.inr rfl,
    (success_fail_emit_law (.vobj []) (Or.inr rfl) 201 "ok"
      ⟨some "yay", none, none⟩).2.1⟩

/-- C2 counterexample: `0` is a number — neither null nor an object — yet
`success` does not raise `InvalidDataKind`: being falsy, it slips past the
`data && typeof data !== "object"` guard and is written out as the `data`
field; likewise `fail` with the empty string `""`. -/
theorem success_fail_accept_falsy_primitives :
    Jsend.success (some (.vnum 0)) none none
      = .ok [.setStatus 200, .sendJson (Jsend.dataEnvelope "success" (.vnum 0))]
    ∧ Jsend.fail (some (.vstr "")) none none
      = .ok [.setStatus 400, .sendJson (Jsend.dataEnvelope "fail" (.vstr ""))] :=
  ⟨rfl, rfl⟩

/-- C2 (amended): for every truthy value that is not object-typed (e.g. a
non-empty string, a non-zero number, `true`), both `success` and `fail`
raise `InvalidDataKind` and perform no write; the falsy primitives `0`,
`""` and `false` are accepted and emitted instead. -/
theorem success_fail_reject_truthy_nonobject (d : JsValue)
    (h1 : d.truthy = true) (h2 : d.typeOf ≠ "object")
    (s : Option Int) (l : Option String) :
    Jsend.success (some d) s l = .error .invalidDataKind
    ∧ Jsend.fail (some d) s l = .error .invalidDataKind := by
  have hres : resolveArg (some d) .vnull = d :=
    resolveArg_of_ne _ _ (truthy_ne_vundefined d h1)
  constructor <;> simp [Jsend.success, Jsend.fail, hres, h1, h2]

/-- Witness for the amended C2 at the truthy non-object `"x"`. -/
theorem success_fail_reject_truthy_nonobject_witness :
    (JsValue.vstr "x").truthy = true
    ∧ (JsValue.vstr "x").typeOf ≠ "object"
    ∧ Jsend.success (some (.vstr "x")) none none = .error .invalidDataKind
    ∧ Jsend.fail (some (.vstr "x")) none none = .error .invalidDataKind :=
  ⟨rfl, by decide,
    (success_fail_reject_truthy_nonobject (.vstr "x") rfl (by decide) none none).1,
    (success_fail_reject_truthy_nonobject (.vstr "x") rfl (by decide) none none).2⟩

/-- C9: an array passed as `data` is structurally accepted by the
object-or-null validation (`typeof` of an array is `"object"`) and is
emitted as the envelope's `data` field, by both `success` and `fail`. -/
theorem arrays_accepted_as_data (elems : List JsValue) (s : Option Int)
    (l : Option String) :
    Jsend.success (some (.varr elems)) s l
      = .ok [.setStatus (s.getD 200),
          .sendJson (Jsend.dataEnvelope (l.getD "success") (.varr elems))]
    ∧ Jsend.fail (some (.varr elems)) s l
      = .ok [.setStatus (s.getD 400),
          .sendJson (Jsend.dataEnvelope (l.getD "fail") (.varr elems))] :=
  ⟨rfl, rfl⟩

/-- C10: `success` and `fail` are the same function on explicit arguments —
identical raise condition, identical envelope and status code — and differ
only in their defaults: status 200 and label `"success"` versus status 400
and label `"fail"`. -/
theorem success_fail_same_function (data : Option JsValue) (s : Int)
    (l : String) :
    Jsend.success data (some s) (some l) = Jsend.fail data (some s) (some l)
    ∧ Jsend.success data none none
      = Jsend.success data (some 200) (some "success")
    ∧ Jsend.fail data none none = Jsend.fail data (some 400) (some "fail") :=
  ⟨rfl, rfl, rfl⟩

/-- C4 counterexample: calling `error` with the message argument missing
does not raise `InvalidMessage` — the default parameter `message =
"Internal Server Error"` applies and the envelope is written with status
500. -/
theorem error_missing_message_emits_default :
    Jsend.error none none none none
      = .ok [.setStatus 500, .sendJson (.vobj
          [("status", .vstr "error"),
           ("message", .vstr "Internal Server Error")])] := rfl

/-- C4 (amended): `error` raises `InvalidMessage` and performs no write
whenever its message argument is passed and is either a non-string value
(other than `undefined`) or a string with no non-whitespace character; a
missing (or `undefined`) message instead takes the default `"Internal
Server Error"` and the call emits normally. -/
theorem error_message_validation (m : JsValue) (s : Option Int)
    (o : Option JsValue) (l : Option String) (s2 : Int) (l2 : String)
    (h : (m.typeOf ≠ "string" ∧ m ≠ .vundefined)
      ∨ ∃ str, m = .vstr str ∧ strBlank str = true) :
    Jsend.error (some m) s o l = .error .invalidMessage
    ∧ Jsend.error none (some s2) none (some l2)
      = .ok [.setStatus s2, .sendJson (.vobj
          [("status", .vstr l2),
           ("message", .vstr "Internal Server Error")])] := by
  constructor
  · rcases h with ⟨hty, hnu⟩ | ⟨str, rfl, hb⟩
    · cases m with
      | vstr str => exact absurd rfl hty
      | vundefined => exact absurd rfl hnu
      | vnull => rfl
      | vbool b => rfl
      | vnum n => rfl
      | vobj fs => rfl
      | varr es => rfl
      | vfun => rfl
    · simp [Jsend.error, resolveArg, hb]
  · rfl

/-- Witness for the amended C4 at the non-string message `5` and the blank
message `"   "`. -/
theorem error_message_validation_witness :
    ((JsValue.vnum 5).typeOf ≠ "string" ∧ (JsValue.vnum 5) ≠ .vundefined)
    ∧ Jsend.error (some (.vnum 5)) none none none = .error .invalidMessage
    ∧ strBlank "   " = true
    ∧ Jsend.error (some (.vstr "   ")) none none none
      = .error .invalidMessage :=
  ⟨⟨by decide, fun h => JsValue.noConfusion h⟩,
    (error_message_validation (.vnum 5) none none none 500 "error"
      (Or.inl ⟨by decide, fun h => JsValue.noConfusion h⟩)).1,
    rfl,
    (error_message_validation (.vstr "   ") none none none 500 "error"
      (Or.inr ⟨"   ", rfl, rfl⟩)).1⟩

/-- C5 counterexample: the empty string is present as `options.extra` and
is not an object, yet `error` does not raise `InvalidExtraKind` — being
falsy, it slips past the `options.extra && typeof options.extra !==
"object"` guard and the envelope is emitted without an `extra` key. -/
theorem error_falsy_extra_accepted :
    Jsend.error (some (.vstr "Oops")) none
      (some (.vobj [("extra", .vstr "")])) none
      = .ok [.setStatus 500, .sendJson (.vobj
          [("status", .vstr "error"), ("message", .vstr "Oops")])] := rfl

/-- C5 (amended): `error` raises `InvalidExtraKind` and performs no write
whenever `options.extra` is truthy and not object-typed (e.g. a non-empty
string); a falsy non-object `extra` (the empty string, `0`, `false`,
`null`) is instead ignored, the envelope being emitted without an `extra`
key. -/
theorem error_extra_validation (str : String) (o : JsValue)
    (s : Option Int) (l : Option String)
    (hm : strBlank str = false)
    (h1 : (o.getField "extra").truthy = true)
    (h2 : (o.getField "extra").typeOf ≠ "object") :
    Jsend.error (some (.vstr str)) s (some o) l
      = .error .invalidExtraKind := by
  have hnu : o ≠ .vundefined := by
    rintro rfl
    simp [JsValue.getField, JsValue.truthy] at h1
  have hres : resolveArg (some o) (.vobj []) = o := resolveArg_of_ne _ _ hnu
  simp [Jsend.error, resolveArg, hres, hm, h1, h2]

/-- Witness for the amended C5 at `options = {extra: "nope"}`. -/
theorem error_extra_validation_witness :
    strBlank "Oops" = false
    ∧ ((JsValue.vobj [("extra", .vstr "nope")]).getField "extra").truthy = true
    ∧ ((JsValue.vobj [("extra", .vstr "nope")]).getField "extra").typeOf
        ≠ "object"
    ∧ Jsend.error (some (.vstr "Oops")) none
        (some (.vobj [("extra", .vstr "nope")])) none
      = .error .invalidExtraKind :=
  ⟨rfl, rfl, by decide,
    error_extra_validation "Oops" (.vobj [("extra", .vstr "nope")]) none none
      rfl rfl (by decide)⟩

/-- C6: the wrappers that `jsendMiddleware` installs on `res.jsend` declare
only `(data, status)` (resp. `(message, status, options)`), so an explicit
per-call label passed by the caller is silently ignored and the configured
(or default) label is emitted in its place: with the default configuration,
`res.jsend.success({user: {}}, 201, "ok")` emits `status: "success"`, not
the documented `"ok"`. -/
theorem attached_label_override_ignored :
    Jsend.attachedSuccess {} (some (.vobj [("user", .vobj [])])) (some 201)
        (some "ok")
      = .ok [.setStatus 201,
          .sendJson (Jsend.dataEnvelope "success" (.vobj [("user", .vobj [])]))]
    ∧ ("success" : String) ≠ "ok" :=
  ⟨rfl, by decide⟩

/-- C3: `error` assembles its envelope by presence-conditional inclusion.
Concretely, `error("DB down", 500, {code: "DB_ERR", details: {retryAfter:
60}, extra: {traceId: "abc123"}})` emits exactly
`{"status":"error","message":"DB down","code":"DB_ERR","details":
{"retryAfter":60},"extra":{"traceId":"abc123"}}` with status 500, and
`error("Oops")` emits exactly `{"status":"error","message":"Oops"}` with
status 500; in general, for a valid message and a valid options value, the
emitted envelope contains the `code` (resp. `details`, `extra`) key exactly
when the corresponding option is truthy, verbatim (for `extra`, as a
shallow copy of its entries). -/
theorem error_presence_conditional_inclusion :
    Jsend.error (some (.vstr "DB down")) (some 500)
        (some (.vobj [("code", .vstr "DB_ERR"),
          ("details", .vobj [("retryAfter", .vnum 60)]),
          ("extra", .vobj [("traceId", .vstr "abc123")])])) none
      = .ok [.setStatus 500, .sendJson (.vobj
          [("status", .vstr "error"), ("message", .vstr "DB down"),
           ("code", .vstr "DB_ERR"),
           ("details", .vobj [("retryAfter", .vnum 60)]),
           ("extra", .vobj [("traceId", .vstr "abc123")])])]
    ∧ Jsend.error (some (.vstr "Oops")) none none none
      = .ok [.setStatus 500, .sendJson (.vobj
          [("status", .vstr "error"), ("message", .vstr "Oops")])]
    ∧ ∀ (str : String) (o : JsValue) (s : Int) (l : String),
        strBlank str = false →
        ((o.getField "extra").truthy
          && (o.getField "extra").typeOf != "object") = false →
        o ≠ .vundefined →
        (bodyLookup
            (Jsend.error (some (.vstr str)) (some s) (some o) (some l))
            "code"
          = (if (o.getField "code").truthy then some (o.getField "code")
             else none)
        ∧ bodyLookup
            (Jsend.error (some (.vstr str)) (some s) (some o) (some l))
            "details"
          = (if (o.getField "details").truthy then some (o.getField "details")
             else none)
        ∧ bodyLookup
            (Jsend.error (some (.vstr str)) (some s) (some o) (some l))
            "extra"
          = (if (o.getField "extra").truthy
             then some (.vobj (o.getField "extra").spreadIntoObject)
             else none)) := by
  refine ⟨rfl, rfl, ?_⟩
  intro str o s l hb hex hnu
  have hres : resolveArg (some o) (.vobj []) = o := resolveArg_of_ne _ _ hnu
  by_cases he : (o.getField "extra").truthy
  · have hto : (o.getField "extra").typeOf = "object" := by
      simpa [he] using hex
    by_cases hc : (o.getField "code").truthy <;>
    by_cases hdt : (o.getField "details").truthy <;>
      simp [Jsend.error, resolveArg, hres, hb, hc, hdt, he, hto,
        bodyLookup, sentBody, List.lookup]
  · by_cases hc : (o.getField "code").truthy <;>
    by_cases hdt : (o.getField "details").truthy <;>
      simp [Jsend.error, resolveArg, hres, hb, hc, hdt, he,
        bodyLookup, sentBody, List.lookup]

/-- Witness for C3's general part at `error("m", 7, {code: "C"}, "e")`. -/
theorem error_presence_conditional_inclusion_witness :
    strBlank "m" = false
    ∧ (((JsValue.vobj [("code", .vstr "C")]).getField "extra").truthy
        && ((JsValue.vobj [("code", .vstr "C")]).getField "extra").typeOf
          != "object") = false
    ∧ bodyLookup (Jsend.error (some (.vstr "m")) (some 7)
        (some (.vobj [("code", .vstr "C")])) (some "e")) "code"
      = some (.vstr "C")
    ∧ bodyLookup (Jsend.error (some (.vstr "m")) (some 7)
        (some (.vobj [("code", .vstr "C")])) (some "e")) "extra"
      = none :=
  ⟨rfl, rfl,
    (error_presence_conditional_inclusion.2.2 "m" (.vobj [("code", .vstr "C")])
      7 "e" rfl rfl (fun h => JsValue.noConfusion h)).1,
    (error_presence_conditional_inclusion.2.2 "m" (.vobj [("code", .vstr "C")])
      7 "e" rfl rfl (fun h => JsValue.noConfusion h)).2.2⟩

/-- C7: the envelope's `extra` is a shallow copy of the caller's object —
`errorExtraRef` stores in the envelope a freshly allocated address holding
the caller's entries at call time, so the two addresses differ, the copied
entries equal the caller's, and mutating the caller's object afterwards
leaves the envelope's `extra` contents unchanged. -/
theorem error_extra_shallow_copy (h : Heap) (a : Nat) (sl m : String)
    (ha : a < h.next) :
    ∃ b, (errorExtraRef h sl m (some a)).2.extraRef = some b
      ∧ b ≠ a
      ∧ (errorExtraRef h sl m (some a)).1.get b = h.get a
      ∧ ∀ fields,
          ((errorExtraRef h sl m (some a)).1.set a fields).get b = h.get a := by
  have hne : h.next ≠ a := (Nat.ne_of_lt ha).symm
  refine ⟨h.next, rfl, hne, ?_, ?_⟩
  · simp [errorExtraRef, Heap.alloc, Heap.get]
  · intro fields
    simp [errorExtraRef, Heap.alloc, Heap.get, Heap.set, hne]

/-- Witness for C7 at a two-object heap with the caller's `extra` at
address 0 holding `{k: 1}`. -/
theorem error_extra_shallow_copy_witness :
    (0 < (Heap.mk (fun _ => [("k", JsValue.vnum 1)]) 2).next)
    ∧ ∃ b, (errorExtraRef (Heap.mk (fun _ => [("k", JsValue.vnum 1)]) 2)
          "error" "m" (some 0)).2.extraRef = some b
        ∧ b ≠ 0
        ∧ (errorExtraRef (Heap.mk (fun _ => [("k", JsValue.vnum 1)]) 2)
            "error" "m" (some 0)).1.get b
          = (Heap.mk (fun _ => [("k", JsValue.vnum 1)]) 2).get 0
        ∧ ∀ fields,
            ((errorExtraRef (Heap.mk (fun _ => [("k", JsValue.vnum 1)]) 2)
              "error" "m" (some 0)).1.set 0 fields).get b
            = (Heap.mk (fun _ => [("k", JsValue.vnum 1)]) 2).get 0 :=
  ⟨by decide,
    error_extra_shallow_copy (Heap.mk (fun _ => [("k", JsValue.vnum 1)]) 2)
      0 "error" "m" (by decide)⟩

/-- C8: constructing a `Jsend` formatter succeeds exactly when the response
target is present and exposes callable (`typeof ... === "function"`)
`status` and `json` capabilities, and otherwise fails with
`InvalidResponseTarget`; the constructor performs no write either way (its
result carries no `Emit` trace — the source only validates and stores the
reference). -/
theorem construct_validates_target (res : Option ResTarget) :
    (Jsend.construct res = .ok () ↔
      ∃ r, res = some r ∧ r.status.typeOf = "function"
        ∧ r.json.typeOf = "function")
    ∧ (Jsend.construct res = .error .invalidResponseTarget ↔
      res = none ∨ ∃ r, res = some r ∧
        (r.status.typeOf ≠ "function" ∨ r.json.typeOf ≠ "function")) := by
  cases res with
  | none => simp [Jsend.construct]
  | some r =>
    by_cases h1 : r.status.typeOf = "function" <;>
    by_cases h2 : r.json.typeOf = "function" <;>
      simp [Jsend.construct, h1, h2]
